import Mathlib

/-!
Shallow embedding of `packages/@schmooky/pixi-rive/src/index.ts` (the
`RiveSprite` class). The class is modelled as a state record plus one Lean
function per method. External collaborators (the network fetch, the Rive
engine constructor and its cleanup, the Pixi texture source's `update`
method) are modelled by an environment record saying how each external call
behaves during one load cycle; every observable interaction with a
collaborator is recorded in an event trace. `async` methods are split at
their single suspension point (the fetch `await`) into a synchronous prefix
and a resumption, so that operations interleaved during the in-flight fetch
can be expressed. JavaScript numbers are modelled as `ℚ` (no NaN/Infinity
arises in the modelled paths) and `Math.floor` as `Int.floor`.
-/

namespace PixiRive

/-- Severity of a console message emitted through the logging helpers
(`log`/`debug`/`warn`/`error` in the source). -/
inductive LogLevel
  | info
  | dbg
  | warn
  | error
deriving DecidableEq

/-- One observable interaction of the adapter with the outside world:
a console message, a fetch being issued for a source URL, the Pixi system
ticker callback being added or removed, a call on a Rive engine handle
(identified by a number), a `TextureSource.update` upload, or the
`super.destroy` call into Pixi. -/
inductive Event
  | log (lvl : LogLevel) (msg : String)
  | fetchAttempt (src : String)
  | tickerAdd
  | tickerRemove
  | rivePaused (h : Nat)
  | rivePlayed (h : Nat)
  | riveCleanup (h : Nat)
  | riveCreated (h : Nat) (autoplay : Bool)
  | texUpdate
  | superDestroy
deriving DecidableEq

/-- The mutable fields of a `RiveSprite` instance.

* `rive` — `this._rive`, the bound engine handle (`none` = `undefined`);
  handles are identified by numbers drawn from `nextHandle`.
* `hasTicker` — whether `this._ticker` is set (the tick callback is
  registered with `Ticker.system`).
* `src`, `autoplay`, `size`, `dpr`, `ready`, `destroyed`, `didFirstUpload`,
  `debug` — `_src`, `_autoplay`, `_size`, `_dpr`, `_ready`, `_destroyed`,
  `_didFirstUpload`, `_debug`.
* `canvasW`, `canvasH` — the backing canvas's physical pixel dimensions. -/
structure RiveState where
  rive : Option Nat
  nextHandle : Nat
  hasTicker : Bool
  src : String
  autoplay : Bool
  size : ℚ
  dpr : ℚ
  canvasW : ℤ
  canvasH : ℤ
  ready : Bool
  destroyed : Bool
  didFirstUpload : Bool
  debug : Bool
deriving DecidableEq

/-- Result of running a method that can raise: the state after the call,
the events it emitted, and whether an exception propagated to the caller. -/
structure StepOut where
  s : RiveState
  ev : List Event
  err : Bool
deriving DecidableEq

/-- `this.log(msg)`: emits an info message only when `_debug` is set. -/
def logInfo (s : RiveState) (msg : String) : List Event :=
  if s.debug then [Event.log .info msg] else []

/-- `this.debug(msg)`: emits a debug message only when `_debug` is set. -/
def logDbg (s : RiveState) (msg : String) : List Event :=
  if s.debug then [Event.log .dbg msg] else []

/-- `this.warn(msg)`: emits a warning only when `_debug` is set. -/
def logWarn (s : RiveState) (msg : String) : List Event :=
  if s.debug then [Event.log .warn msg] else []

/-- `this.error(msg)`: always emits an error message (not gated). -/
def logError (msg : String) : List Event :=
  [Event.log .error msg]

/-- Constructor options (`RiveSpriteOptions`): `src` is required, the rest
are optional with defaults applied in the constructor. -/
structure RiveSpriteOptions where
  src : String
  autoplay : Option Bool
  size : Option ℚ
  interactive : Option Bool
  debug : Option Bool

/-- JavaScript `x || 1` on a number: falls back to `1` when `x` is falsy
(for a `ℚ` the only falsy value is `0`). -/
def jsOr1 (x : ℚ) : ℚ :=
  if x = 0 then 1 else x

/-- Rational multiplication, written out through `Rat.normalize` so the
kernel can evaluate it on concrete inputs (`Rat.mul` is irreducible);
`qMul_eq_mul` below shows it is exactly `*`. -/
def qMul (a b : ℚ) : ℚ :=
  Rat.normalize (a.num * b.num) (a.den * b.den)
    (Nat.mul_ne_zero a.den_nz b.den_nz)

/-- Physical surface size for a logical size and scale:
`Math.max(2, Math.floor(size * scale))`. -/
def physicalSize (size scale : ℚ) : ℤ :=
  max 2 ⌊qMul size scale⌋

/-- The `RiveSprite` constructor, taking the host-reported
`window.devicePixelRatio` as a parameter: applies option defaults
(`size` 512, `autoplay` true, `debug` true), clamps the device pixel ratio
to at least 1, sizes the backing canvas to
`max(2, floor(size * dpr))` on both axes, and leaves the sprite not ready
with no engine handle and no ticker. (The async `init()` it fires off is
modelled separately.) -/
def mkRiveSprite (opts : RiveSpriteOptions) (hostDpr : ℚ) : RiveState :=
  let size := opts.size.getD 512
  let dpr := max 1 (jsOr1 hostDpr)
  { rive := none
    nextHandle := 0
    hasTicker := false
    src := opts.src
    autoplay := opts.autoplay.getD true
    size := size
    dpr := dpr
    canvasW := physicalSize size dpr
    canvasH := physicalSize size dpr
    ready := false
    destroyed := false
    didFirstUpload := false
    debug := opts.debug.getD true }

/-- Default options with source `"a.riv"`, as in the demo harness. -/
def sampleOpts : RiveSpriteOptions :=
  { src := "a.riv", autoplay := none, size := none, interactive := none,
    debug := none }

/-- `pause()`: logs, sets `_autoplay = false`, and calls `pause` on the
engine handle when one is bound. -/
def RiveState.pauseOp (s : RiveState) : RiveState × List Event :=
  ({ s with autoplay := false },
   logInfo s "pause" ++
     (match s.rive with
      | some h => [Event.rivePaused h]
      | none => []))

/-- `play()`: logs, sets `_autoplay = true`, and calls `play` on the
engine handle when one is bound. -/
def RiveState.playOp (s : RiveState) : RiveState × List Event :=
  ({ s with autoplay := true },
   logInfo s "play" ++
     (match s.rive with
      | some h => [Event.rivePlayed h]
      | none => []))

/-- `enable()`: logs, and if `_ticker` is not yet set, stores the system
ticker and adds the tick callback to it. -/
def RiveState.enable (s : RiveState) : RiveState × List Event :=
  let e0 := logInfo s "enable"
  if s.hasTicker then
    (s, e0)
  else
    ({ s with hasTicker := true },
     e0 ++ [Event.tickerAdd] ++ logInfo s "enable.ticker.added")

/-- `disable()`: logs, and if `_ticker` is set, removes the tick callback
and clears `_ticker`. -/
def RiveState.disable (s : RiveState) : RiveState × List Event :=
  let e0 := logInfo s "disable"
  if s.hasTicker then
    ({ s with hasTicker := false },
     e0 ++ [Event.tickerRemove] ++ logInfo s "disable.ticker.removed")
  else
    (s, e0)

/-- `destroy(options)`: logs `destroy.begin`; if `_destroyed` is already
set, warns `destroy.called_twice` and returns; otherwise sets
`_destroyed`, runs `disable()`, attempts `this._rive?.cleanup()` inside a
try/catch whose outcome is given by `cleanupThrows` (a throw is caught and
logged as a warning), then calls `super.destroy(options)`. The engine
handle field is NOT cleared by the source. `destroy` itself never throws:
its only fallible call is wrapped in try/catch. -/
def RiveState.destroy (cleanupThrows : Bool) (s : RiveState) :
    RiveState × List Event :=
  let e0 := logInfo s "destroy.begin"
  if s.destroyed then
    (s, e0 ++ logWarn s "destroy.called_twice")
  else
    let s1 : RiveState := { s with destroyed := true }
    let d := s1.disable
    let s2 := d.1
    let eClean :=
      match s2.rive with
      | none => logInfo s2 "destroy.rive.cleanup_ok"
      | some h =>
        if cleanupThrows then
          logWarn s2 "destroy.rive.cleanup_error"
        else
          [Event.riveCleanup h] ++ logInfo s2 "destroy.rive.cleanup_ok"
    (s2, e0 ++ d.2 ++ eClean ++ [Event.superDestroy] ++
      logInfo s2 "destroy.end")

/-- How the Pixi texture source behaves when the code reaches
`ts.update()`: the method exists and succeeds, the method is absent
(`typeof ts.update !== 'function'`), or the call throws. -/
inductive TexBehavior
  | ok
  | noMethod
  | throws
deriving DecidableEq

/-- `update(deltaMS)`, the per-frame tick callback: returns early (with a
debug message) when no engine handle is bound or no ticker is set;
otherwise attempts `ts.update()` inside a try/catch — on success it marks
the first upload as seen, on a missing method or a thrown error it only
warns. The method never throws: every fallible call is wrapped. -/
def RiveState.update (texB : TexBehavior) (s : RiveState) :
    RiveState × List Event :=
  match s.rive with
  | none => (s, logDbg s "update.skip.no_rive")
  | some _ =>
    if s.hasTicker then
      match texB with
      | .ok =>
        ({ s with didFirstUpload := true },
         [Event.texUpdate] ++
           (if s.didFirstUpload then []
            else logInfo s "update.first_upload_seen"))
      | .noMethod => (s, logWarn s "update.texture.no_update_method")
      | .throws => (s, logWarn s "update.texture.upload_error")
    else
      (s, logDbg s "update.skip.no_ticker")

/-- Behaviour of the external collaborators during one `initRive` run:
whether the fetch resolves successfully, whether cleanup of the previous
engine handle throws, whether `new Rive(...)` throws, and how the texture
source behaves at the priming upload. -/
structure InitEnv where
  fetchOk : Bool
  oldCleanupThrows : Bool
  riveCreateThrows : Bool
  tex : TexBehavior
deriving DecidableEq

/-- The synchronous prefix of `initRive()` up to its suspension point:
clears `_ready` and `_didFirstUpload`, captures `_src`, logs
`initRive.start`, and issues the fetch for the captured source. -/
def RiveState.initRiveBegin (s : RiveState) : RiveState × List Event :=
  let s1 : RiveState := { s with ready := false, didFirstUpload := false }
  (s1, logInfo s1 "initRive.start" ++ [Event.fetchAttempt s1.src])

/-- The continuation of `initRive()` from the point where the fetch
settles. On fetch failure the error is logged and rethrown (the state
keeps the `ready = false` set by the prefix). On success: the previous
engine handle, if any, is paused and cleaned up inside a try/catch (a
throw is caught and logged as a warning and never stops the rebind); then
`new Rive(...)` is attempted — on throw the error is logged and rethrown —
binding a fresh handle on success; then one priming `ts.update()` is
attempted inside a try/catch (success sets `_didFirstUpload`; a missing
method or a throw only warns); finally `_ready` is set to `true`
unconditionally. Note the source has no `_destroyed` check anywhere on
this path. -/
def RiveState.initRiveResume (env : InitEnv) (s : RiveState) : StepOut :=
  if env.fetchOk then
    let eFetch := logInfo s "initRive.fetch.ok"
    let eOld :=
      match s.rive with
      | none => []
      | some h =>
        [Event.rivePaused h] ++
          (if env.oldCleanupThrows then
            logWarn s "initRive.old.cleanup_error"
          else
            [Event.riveCleanup h] ++ logInfo s "initRive.old.cleanup_ok")
    if env.riveCreateThrows then
      { s := s
        ev := eFetch ++ eOld ++ logError "initRive.rive.create_failed"
        err := true }
    else
      let h := s.nextHandle
      let s2 : RiveState := { s with rive := some h, nextHandle := h + 1 }
      let eNew := [Event.riveCreated h s2.autoplay] ++
        logInfo s2 "initRive.rive.created"
      let tx : RiveState × List Event :=
        match env.tex with
        | .ok =>
          ({ s2 with didFirstUpload := true },
           [Event.texUpdate] ++ logInfo s2 "initRive.texture.first_upload_ok")
        | .noMethod => (s2, logWarn s2 "initRive.texture.no_update_method")
        | .throws => (s2, logWarn s2 "initRive.texture.first_upload_error")
      let s4 : RiveState := { tx.1 with ready := true }
      { s := s4
        ev := eFetch ++ eOld ++ eNew ++ tx.2 ++ logInfo s4 "initRive.end"
        err := false }
  else
    { s := s, ev := logError "initRive.fetch.failed", err := true }

/-- `initRive()` run without interleaving: the synchronous prefix followed
immediately by the resumption. -/
def RiveState.initRive (env : InitEnv) (s : RiveState) : StepOut :=
  let b := s.initRiveBegin
  let r := b.1.initRiveResume env
  { r with ev := b.2 ++ r.ev }

/-- `setSource(src)`: logs, overwrites `this._src` with the new source,
then awaits `initRive()`; any error from `initRive` propagates to the
caller. -/
def RiveState.setSource (env : InitEnv) (newSrc : String) (s : RiveState) :
    StepOut :=
  let e0 := logInfo s "setSource"
  let s1 : RiveState := { s with src := newSrc }
  let r := s1.initRive env
  { r with ev := e0 ++ r.ev }

/-- Number of frame callbacks currently registered with the host clock on
behalf of this adapter: the source registers its single `_tick` closure
exactly when `_ticker` is set. -/
def registeredCallbacks (s : RiveState) : Nat :=
  if s.hasTicker then 1 else 0

/-- An `InitEnv` in which every external step succeeds. -/
def envOk : InitEnv :=
  { fetchOk := true, oldCleanupThrows := false, riveCreateThrows := false,
    tex := .ok }

/-- An `InitEnv` whose fetch fails (e.g. HTTP 404). -/
def envFetchFail : InitEnv :=
  { envOk with fetchOk := false }

/-- An `InitEnv` in which everything succeeds except the priming
`ts.update()` call, which throws. -/
def envTexThrows : InitEnv :=
  { envOk with tex := .throws }

/-- An `InitEnv` in which everything succeeds except the cleanup of the
previous engine handle, which throws. -/
def envCleanupThrows : InitEnv :=
  { envOk with oldCleanupThrows := true }

/-- The adapter after a fully successful `init()` on a freshly constructed
sprite at device pixel ratio 2: handle 0 is bound, the ticker is
registered, the sprite is ready. This mirrors `init()` = `initRive()`
then `enable()`. -/
def readyState : RiveState :=
  (((mkRiveSprite sampleOpts 2).initRive envOk).s.enable).1

/-- `readyState` after `destroy()` (engine cleanup succeeding). -/
def destroyedState : RiveState :=
  (readyState.destroy false).1

/-- Options selecting an explicit logical size of 512, used to instantiate
the sizing theorem. -/
def opts512 : RiveSpriteOptions :=
  { src := "a.riv", autoplay := none, size := some 512, interactive := none,
    debug := none }

/-- The adapter state at the moment a `setSource`-initiated fetch is in
flight on `readyState`: the synchronous prefix of `initRive` has run and
the fetch has been issued but has not yet settled. -/
def c3AfterBegin : RiveState :=
  (readyState.initRiveBegin).1

/-- `c3AfterBegin` after `destroy()` runs while the fetch is still in
flight (engine cleanup succeeding). -/
def c3AfterDestroy : RiveState :=
  (c3AfterBegin.destroy false).1

/-- The outcome of the in-flight load completing (successfully) after the
destroy: the resumption of `initRive` on the destroyed state. -/
def c3Resume : StepOut :=
  c3AfterDestroy.initRiveResume envOk

/-- The adapter mid-load on a previously ready instance: `_ready` has been
cleared by the prefix of `initRive`, the old engine handle is still bound,
and the ticker is still registered — the state a frame tick sees while a
source swap's fetch is in flight. -/
def loadingTickState : RiveState :=
  (readyState.initRiveBegin).1

/-- True of events that dispose an engine handle. -/
def isCleanupEvent : Event → Bool
  | .riveCleanup _ => true
  | _ => false

/-- True of error-level console messages. -/
def isErrorLog : Event → Bool
  | .log .error _ => true
  | _ => false

-- ===================== Theorems =====================

theorem qMul_eq_mul (a b : ℚ) : qMul a b = a * b :=
  (Rat.mul_def a b).symm

theorem physicalSize_eq (size scale : ℚ) :
    physicalSize size scale = max 2 ⌊size * scale⌋ := by
  rw [physicalSize, qMul_eq_mul]

theorem mem_logInfo {e : Event} {s : RiveState} {m : String} :
    e ∈ logInfo s m ↔ s.debug = true ∧ e = .log .info m := by
  unfold logInfo
  by_cases h : s.debug <;> simp [h]

theorem mem_logDbg {e : Event} {s : RiveState} {m : String} :
    e ∈ logDbg s m ↔ s.debug = true ∧ e = .log .dbg m := by
  unfold logDbg
  by_cases h : s.debug <;> simp [h]

theorem mem_logWarn {e : Event} {s : RiveState} {m : String} :
    e ∈ logWarn s m ↔ s.debug = true ∧ e = .log .warn m := by
  unfold logWarn
  by_cases h : s.debug <;> simp [h]

theorem mem_logError {e : Event} {m : String} :
    e ∈ logError m ↔ e = .log .error m := by
  simp [logError]

theorem initRiveResume_destroyed (env : InitEnv) (s : RiveState) :
    (s.initRiveResume env).s.destroyed = s.destroyed := by
  obtain ⟨f, oc, rc, tx⟩ := env
  cases f <;> cases rc <;> cases tx <;> simp [RiveState.initRiveResume]

theorem initRive_destroyed (env : InitEnv) (s : RiveState) :
    (s.initRive env).s.destroyed = s.destroyed := by
  simp [RiveState.initRive, RiveState.initRiveBegin, initRiveResume_destroyed]

theorem setSource_destroyed (env : InitEnv) (newSrc : String)
    (s : RiveState) :
    (s.setSource env newSrc).s.destroyed = s.destroyed := by
  simp [RiveState.setSource, initRive_destroyed]

theorem initRiveResume_success (env : InitEnv) (s : RiveState)
    (hf : env.fetchOk = true) (hc : env.riveCreateThrows = false) :
    (s.initRiveResume env).s.rive = some s.nextHandle ∧
    (s.initRiveResume env).s.ready = true ∧
    (s.initRiveResume env).err = false := by
  obtain ⟨f, oc, rc, tx⟩ := env
  simp only at hf hc
  subst hf; subst hc
  cases tx <;> simp [RiveState.initRiveResume]

theorem setSource_success (env : InitEnv) (newSrc : String) (s : RiveState)
    (hf : env.fetchOk = true) (hc : env.riveCreateThrows = false) :
    (s.setSource env newSrc).s.rive = some s.nextHandle ∧
    (s.setSource env newSrc).s.ready = true ∧
    (s.setSource env newSrc).err = false := by
  obtain ⟨f, oc, rc, tx⟩ := env
  simp only at hf hc
  subst hf; subst hc
  cases tx <;>
    simp [RiveState.setSource, RiveState.initRive, RiveState.initRiveBegin,
      RiveState.initRiveResume]

/-- C8: calling `enable()` twice in a row leaves exactly one frame
callback registered with the host clock and the second call registers
none; calling `disable()` twice in a row leaves none registered and the
second call removes none — both operations are idempotent. -/
theorem c8_enable_disable_idempotent (s : RiveState) :
    ((s.enable).1.enable).1 = (s.enable).1 ∧
    registeredCallbacks ((s.enable).1.enable).1 = 1 ∧
    Event.tickerAdd ∉ ((s.enable).1.enable).2 ∧
    ((s.disable).1.disable).1 = (s.disable).1 ∧
    registeredCallbacks ((s.disable).1.disable).1 = 0 ∧
    Event.tickerRemove ∉ ((s.disable).1.disable).2 := by
  by_cases h : s.hasTicker <;>
    simp [RiveState.enable, RiveState.disable, registeredCallbacks, h,
      mem_logInfo]

/-- C7: on an adapter already destroyed, a second `destroy()` leaves the
state untouched, removes no ticker callback, disposes no engine handle,
performs no host teardown, emits no error-level diagnostic (and cannot
raise: every fallible call in `destroy` is wrapped), and reports the
`destroy.called_twice` warning whenever the diagnostic sink is enabled. -/
theorem c7_double_destroy (s : RiveState) (ct : Bool)
    (hd : s.destroyed = true) :
    (s.destroy ct).1 = s ∧
    Event.tickerRemove ∉ (s.destroy ct).2 ∧
    Event.superDestroy ∉ (s.destroy ct).2 ∧
    ((s.destroy ct).2.all fun e => !isCleanupEvent e && !isErrorLog e)
      = true ∧
    (s.debug = true →
      Event.log .warn "destroy.called_twice" ∈ (s.destroy ct).2) := by
  by_cases hdb : s.debug <;>
    simp [RiveState.destroy, hd, logInfo, logWarn, hdb, isCleanupEvent,
      isErrorLog]

/-- C7 witness: the second `destroy()` on the concrete destroyed adapter. -/
theorem c7_double_destroy_witness :
    destroyedState.destroyed = true ∧
    ((destroyedState.destroy true).1 = destroyedState ∧
     Event.tickerRemove ∉ (destroyedState.destroy true).2 ∧
     Event.superDestroy ∉ (destroyedState.destroy true).2 ∧
     ((destroyedState.destroy true).2.all
        fun e => !isCleanupEvent e && !isErrorLog e) = true ∧
     (destroyedState.debug = true →
       Event.log .warn "destroy.called_twice"
         ∈ (destroyedState.destroy true).2)) :=
  ⟨by decide, c7_double_destroy destroyedState true (by decide)⟩

/-- C9: for every positive logical size and host device pixel ratio at
least 1, the backing canvas's physical width and height both equal
`max(2, floor(size * scale))`, and the scale factor used is the
host-reported device pixel ratio clamped below at 1. -/
theorem c9_surface_sizing (opts : RiveSpriteOptions) (hostDpr size : ℚ)
    (hsize : opts.size = some size) (hpos : 0 < size) (hdpr : 1 ≤ hostDpr) :
    (mkRiveSprite opts hostDpr).canvasW = max 2 ⌊size * hostDpr⌋ ∧
    (mkRiveSprite opts hostDpr).canvasH = (mkRiveSprite opts hostDpr).canvasW ∧
    (mkRiveSprite opts hostDpr).dpr = max 1 hostDpr := by
  have h0 : hostDpr ≠ 0 := by
    intro h
    rw [h] at hdpr
    norm_num at hdpr
  have hmax : max 1 hostDpr = hostDpr := max_eq_right hdpr
  simp [mkRiveSprite, hsize, jsOr1, h0, hmax, physicalSize_eq]

/-- C9 witness: logical size 512 at host device pixel ratio 2. -/
theorem c9_surface_sizing_witness :
    opts512.size = some 512 ∧ (0:ℚ) < 512 ∧ (1:ℚ) ≤ 2 ∧
    ((mkRiveSprite opts512 2).canvasW = max 2 ⌊(512:ℚ) * 2⌋ ∧
     (mkRiveSprite opts512 2).canvasH = (mkRiveSprite opts512 2).canvasW ∧
     (mkRiveSprite opts512 2).dpr = max 1 2) :=
  ⟨rfl, by decide, by decide,
   c9_surface_sizing opts512 2 512 rfl (by decide) (by decide)⟩

/-- C1 counterexample: on the concrete ready adapter, a `setSource` whose
fetch fails flips `isReady` from `true` to `false` — `initRive` clears
`_ready` before awaiting the fetch — contradicting the claim that
`isReady` keeps its prior value. -/
theorem c1_counterexample :
    readyState.ready = true ∧
    (readyState.setSource envFetchFail "b.riv").s.ready = false := by
  decide

/-- C1 (amended): a failed `setSource` leaves the previously bound engine
handle bound, unpaused and undisposed (prior content keeps rendering and
playing) and the error propagates to the caller, but `isReady` is `false`
afterwards rather than keeping its prior value; a subsequent successful
`setSource` sets `isReady` to `true`. -/
theorem c1_failed_set_source (s : RiveState) (env env2 : InitEnv)
    (newSrc newSrc2 : String) (h : Nat)
    (hrive : s.rive = some h) (hfail : env.fetchOk = false)
    (h2f : env2.fetchOk = true) (h2c : env2.riveCreateThrows = false) :
    (s.setSource env newSrc).s.rive = some h ∧
    (s.setSource env newSrc).s.ready = false ∧
    (s.setSource env newSrc).err = true ∧
    Event.rivePaused h ∉ (s.setSource env newSrc).ev ∧
    Event.riveCleanup h ∉ (s.setSource env newSrc).ev ∧
    ((s.setSource env newSrc).s.setSource env2 newSrc2).s.ready = true := by
  obtain ⟨f, oc, rc, tx⟩ := env
  simp only at hfail
  subst hfail
  have h2 := (setSource_success env2 newSrc2
    ((s.setSource ⟨false, oc, rc, tx⟩ newSrc).s) h2f h2c).2.1
  refine ⟨?_, ?_, ?_, ?_, ?_, h2⟩ <;>
    simp [RiveState.setSource, RiveState.initRive, RiveState.initRiveBegin,
      RiveState.initRiveResume, hrive, mem_logInfo, mem_logError]

/-- C1 witness: the amended statement on the concrete ready adapter, with
the fetch for the new source failing and a retry succeeding. -/
theorem c1_failed_set_source_witness :
    readyState.rive = some 0 ∧ envFetchFail.fetchOk = false ∧
    envOk.fetchOk = true ∧ envOk.riveCreateThrows = false ∧
    ((readyState.setSource envFetchFail "b.riv").s.rive = some 0 ∧
     (readyState.setSource envFetchFail "b.riv").s.ready = false ∧
     (readyState.setSource envFetchFail "b.riv").err = true ∧
     Event.rivePaused 0 ∉ (readyState.setSource envFetchFail "b.riv").ev ∧
     Event.riveCleanup 0 ∉ (readyState.setSource envFetchFail "b.riv").ev ∧
     ((readyState.setSource envFetchFail "b.riv").s.setSource envOk
        "b.riv").s.ready = true) :=
  ⟨by decide, by decide, by decide, by decide,
   c1_failed_set_source readyState envFetchFail envOk "b.riv" "b.riv" 0
     (by decide) (by decide) (by decide) (by decide)⟩

/-- C2 counterexample: `destroy()` then `enable()` — the destroyed
adapter re-registers its frame callback with the host clock, so the
Destroyed state does not prevent re-registration as claimed. -/
theorem c2_counterexample :
    destroyedState.destroyed = true ∧
    registeredCallbacks destroyedState = 0 ∧
    registeredCallbacks (destroyedState.enable).1 = 1 := by
  decide

/-- C2 (amended): the `_destroyed` flag itself is absorbing — none of
`setSource`, `enable`, `disable`, `play`, `pause`, a frame tick or a
repeated `destroy` resets it — and a frame tick on a destroyed adapter
binds nothing and changes no registration; but `enable` and `setSource`
carry no destroyed-guard: `enable` after destroy re-registers the frame
callback and a successful `setSource` after destroy binds a new engine
handle. -/
theorem c2_destroyed_flag (s : RiveState) (env envS : InitEnv)
    (texB : TexBehavior) (ct : Bool) (newSrc : String)
    (hd : s.destroyed = true) (hti : s.hasTicker = false)
    (hSf : envS.fetchOk = true) (hSc : envS.riveCreateThrows = false) :
    (s.setSource env newSrc).s.destroyed = true ∧
    (s.enable).1.destroyed = true ∧
    (s.disable).1.destroyed = true ∧
    (s.playOp).1.destroyed = true ∧
    (s.pauseOp).1.destroyed = true ∧
    (s.update texB).1.destroyed = true ∧
    (s.destroy ct).1.destroyed = true ∧
    (s.update texB).1.rive = s.rive ∧
    registeredCallbacks (s.update texB).1 = registeredCallbacks s ∧
    (s.enable).1.hasTicker = true ∧
    (s.setSource envS newSrc).s.rive = some s.nextHandle := by
  have h1 : (s.setSource env newSrc).s.destroyed = true := by
    rw [setSource_destroyed]
    exact hd
  have h2 := (setSource_success envS newSrc s hSf hSc).1
  refine ⟨h1, ?_, ?_, ?_, ?_, ?_, ?_, ?_, ?_, ?_, h2⟩ <;>
    cases hr : s.rive <;> cases texB <;>
      simp [RiveState.enable, RiveState.disable, RiveState.playOp,
        RiveState.pauseOp, RiveState.update, RiveState.destroy,
        registeredCallbacks, hd, hti, hr]

/-- C2 witness: the amended statement on the concrete destroyed adapter. -/
theorem c2_destroyed_flag_witness :
    destroyedState.destroyed = true ∧ destroyedState.hasTicker = false ∧
    envOk.fetchOk = true ∧ envOk.riveCreateThrows = false ∧
    ((destroyedState.setSource envFetchFail "c.riv").s.destroyed = true ∧
     (destroyedState.enable).1.destroyed = true ∧
     (destroyedState.disable).1.destroyed = true ∧
     (destroyedState.playOp).1.destroyed = true ∧
     (destroyedState.pauseOp).1.destroyed = true ∧
     (destroyedState.update TexBehavior.ok).1.destroyed = true ∧
     (destroyedState.destroy false).1.destroyed = true ∧
     (destroyedState.update TexBehavior.ok).1.rive = destroyedState.rive ∧
     registeredCallbacks (destroyedState.update TexBehavior.ok).1 =
       registeredCallbacks destroyedState ∧
     (destroyedState.enable).1.hasTicker = true ∧
     (destroyedState.setSource envOk "c.riv").s.rive =
       some destroyedState.nextHandle) :=
  ⟨by decide, by decide, by decide, by decide,
   c2_destroyed_flag destroyedState envFetchFail envOk TexBehavior.ok false
     "c.riv" (by decide) (by decide) (by decide) (by decide)⟩

/-- C3: running the claimed scenario in the model shows the code violates
it — after `destroy()` during an in-flight `setSource` fetch, the
resolving load does not detect the destroyed state: it creates and binds
a fresh engine handle (handle 1) on the destroyed adapter and flips
`_ready` back to `true`; only the no-escaping-exception part holds here
(`err = false`), and not because of any Destroyed check. -/
theorem c3_stale_load_rebinds :
    c3AfterDestroy.destroyed = true ∧
    c3Resume.s.destroyed = true ∧
    c3Resume.s.rive = some 1 ∧
    c3Resume.s.ready = true ∧
    c3Resume.err = false ∧
    Event.riveCreated 1 true ∈ c3Resume.ev := by
  decide

/-- C4 counterexample: with the priming upload throwing (the code
swallows the error), the load still completes with `isReady = true` while
no first-frame upload ever succeeded — Ready is observable without a
successful priming blit. -/
theorem c4_counterexample :
    ((mkRiveSprite sampleOpts 2).initRive envTexThrows).s.ready = true ∧
    ((mkRiveSprite sampleOpts 2).initRive
      envTexThrows).s.didFirstUpload = false ∧
    Event.texUpdate ∉ ((mkRiveSprite sampleOpts 2).initRive
      envTexThrows).ev := by
  decide

/-- C4 (amended): during a load cycle `_ready` is `false` from the start
of `initRive` (in particular at the fetch suspension point), and it
becomes `true` exactly when the fetch and the engine creation succeed —
the priming upload is attempted before `Ready` is set, and when it
succeeds the first frame is uploaded before `Ready` is observable, but a
priming-upload failure or a missing update method is swallowed and does
not prevent `Ready`. -/
theorem c4_ready_timing (s : RiveState) (env : InitEnv) :
    (s.initRiveBegin).1.ready = false ∧
    ((s.initRive env).s.ready = true ↔
      env.fetchOk = true ∧ env.riveCreateThrows = false) ∧
    ((s.initRive env).err = false ↔
      env.fetchOk = true ∧ env.riveCreateThrows = false) ∧
    (env.tex = TexBehavior.ok → env.fetchOk = true →
      env.riveCreateThrows = false →
      Event.texUpdate ∈ (s.initRive env).ev ∧
      (s.initRive env).s.didFirstUpload = true) := by
  obtain ⟨f, oc, rc, tx⟩ := env
  cases f <;> cases oc <;> cases rc <;> cases tx <;>
    cases hr : s.rive <;>
      simp [RiveState.initRive, RiveState.initRiveBegin,
        RiveState.initRiveResume, hr, mem_logInfo, mem_logWarn,
        mem_logError]

/-- C4 witness: the amended statement on a fresh sprite with every
external step succeeding. -/
theorem c4_ready_timing_witness :
    (((mkRiveSprite sampleOpts 2).initRiveBegin).1.ready = false ∧
     (((mkRiveSprite sampleOpts 2).initRive envOk).s.ready = true ↔
       envOk.fetchOk = true ∧ envOk.riveCreateThrows = false) ∧
     (((mkRiveSprite sampleOpts 2).initRive envOk).err = false ↔
       envOk.fetchOk = true ∧ envOk.riveCreateThrows = false) ∧
     (envOk.tex = TexBehavior.ok → envOk.fetchOk = true →
       envOk.riveCreateThrows = false →
       Event.texUpdate ∈ ((mkRiveSprite sampleOpts 2).initRive envOk).ev ∧
       ((mkRiveSprite sampleOpts 2).initRive
         envOk).s.didFirstUpload = true)) :=
  c4_ready_timing (mkRiveSprite sampleOpts 2) envOk

/-- C5 counterexample: a frame tick delivered while a source swap's fetch
is in flight — state not Ready, old handle still bound, ticker active —
performs the blit/upload: the code gates the tick on the handle and the
ticker but never on `isReady`. -/
theorem c5_counterexample :
    loadingTickState.ready = false ∧
    Event.texUpdate ∈ (loadingTickState.update TexBehavior.ok).2 := by
  decide

/-- C5 (amended): the tick callback performs the blit/upload exactly when
an engine handle is bound, the ticker registration is live and the
texture-source update succeeds — `isReady` is not consulted; with a null
engine handle (in particular before any successful load) it is a silent
no-op that leaves the state unchanged and emits at most a debug message;
the callback never throws, every fallible call inside it being wrapped in
try/catch. -/
theorem c5_update_guard (s : RiveState) (texB : TexBehavior) :
    (Event.texUpdate ∈ (s.update texB).2 ↔
      (s.rive ≠ none ∧ s.hasTicker = true ∧ texB = TexBehavior.ok)) ∧
    (s.rive = none →
      (s.update texB).1 = s ∧
      (s.update texB).2 = logDbg s "update.skip.no_rive") := by
  cases hr : s.rive <;> cases texB <;> by_cases ht : s.hasTicker <;>
    simp [RiveState.update, hr, ht, mem_logInfo, mem_logDbg, mem_logWarn]

/-- C5 witness: a tick on a freshly constructed sprite, before any load:
no engine handle is bound, so the tick is a silent no-op. -/
theorem c5_update_guard_witness :
    ((Event.texUpdate ∈
        ((mkRiveSprite sampleOpts 2).update TexBehavior.ok).2 ↔
       ((mkRiveSprite sampleOpts 2).rive ≠ none ∧
        (mkRiveSprite sampleOpts 2).hasTicker = true ∧
        TexBehavior.ok = TexBehavior.ok)) ∧
     ((mkRiveSprite sampleOpts 2).rive = none →
       ((mkRiveSprite sampleOpts 2).update TexBehavior.ok).1 =
         mkRiveSprite sampleOpts 2 ∧
       ((mkRiveSprite sampleOpts 2).update TexBehavior.ok).2 =
         logDbg (mkRiveSprite sampleOpts 2) "update.skip.no_rive")) :=
  c5_update_guard (mkRiveSprite sampleOpts 2) TexBehavior.ok

/-- C6: a source swap on an adapter with a bound engine handle pauses the
old handle and attempts its disposal, with a disposal error caught and
logged as a warning and never preventing the new bind — in every case a
fresh engine handle is bound and the call succeeds; the surfaces match
the physical size for the current configuration after the swap whenever
they did before it (the configuration is fixed at construction, so the
resize step of §4.1 is the specified no-op). -/
theorem c6_rebind_path (s : RiveState) (env : InitEnv) (newSrc : String)
    (h : Nat) (hrive : s.rive = some h)
    (hW : s.canvasW = physicalSize s.size s.dpr)
    (hH : s.canvasH = physicalSize s.size s.dpr)
    (hf : env.fetchOk = true) (hc : env.riveCreateThrows = false) :
    Event.rivePaused h ∈ (s.setSource env newSrc).ev ∧
    (env.oldCleanupThrows = false →
      Event.riveCleanup h ∈ (s.setSource env newSrc).ev) ∧
    (env.oldCleanupThrows = true → s.debug = true →
      Event.log .warn "initRive.old.cleanup_error"
        ∈ (s.setSource env newSrc).ev) ∧
    (s.setSource env newSrc).s.rive = some s.nextHandle ∧
    (s.setSource env newSrc).err = false ∧
    (s.setSource env newSrc).s.canvasW =
      physicalSize (s.setSource env newSrc).s.size
        (s.setSource env newSrc).s.dpr ∧
    (s.setSource env newSrc).s.canvasH =
      physicalSize (s.setSource env newSrc).s.size
        (s.setSource env newSrc).s.dpr := by
  obtain ⟨f, oc, rc, tx⟩ := env
  simp only at hf hc
  subst hf; subst hc
  cases oc <;> cases tx <;>
    simp [RiveState.setSource, RiveState.initRive, RiveState.initRiveBegin,
      RiveState.initRiveResume, hrive, hW, hH, mem_logInfo, mem_logWarn]

/-- C6 witness: a source swap on the concrete ready adapter whose old
handle's disposal throws — the new handle is still bound. -/
theorem c6_rebind_path_witness :
    readyState.rive = some 0 ∧
    readyState.canvasW = physicalSize readyState.size readyState.dpr ∧
    readyState.canvasH = physicalSize readyState.size readyState.dpr ∧
    envCleanupThrows.fetchOk = true ∧
    envCleanupThrows.riveCreateThrows = false ∧
    (Event.rivePaused 0 ∈ (readyState.setSource envCleanupThrows
       "b.riv").ev ∧
     (envCleanupThrows.oldCleanupThrows = false →
       Event.riveCleanup 0 ∈ (readyState.setSource envCleanupThrows
         "b.riv").ev) ∧
     (envCleanupThrows.oldCleanupThrows = true → readyState.debug = true →
       Event.log .warn "initRive.old.cleanup_error"
         ∈ (readyState.setSource envCleanupThrows "b.riv").ev) ∧
     (readyState.setSource envCleanupThrows "b.riv").s.rive =
       some readyState.nextHandle ∧
     (readyState.setSource envCleanupThrows "b.riv").err = false ∧
     (readyState.setSource envCleanupThrows "b.riv").s.canvasW =
       physicalSize (readyState.setSource envCleanupThrows "b.riv").s.size
         (readyState.setSource envCleanupThrows "b.riv").s.dpr ∧
     (readyState.setSource envCleanupThrows "b.riv").s.canvasH =
       physicalSize (readyState.setSource envCleanupThrows "b.riv").s.size
         (readyState.setSource envCleanupThrows "b.riv").s.dpr) :=
  ⟨by decide, by decide, by decide, by decide, by decide,
   c6_rebind_path readyState envCleanupThrows "b.riv" 0 (by decide)
     (by decide) (by decide) (by decide) (by decide)⟩

/-- C10: `setSource` overwrites the stored source identifier before the
fetch is awaited: the failed fetch already targeted the new identifier,
afterwards the stored source is the new (failed) identifier rather than
the previous one, and a later internal reload (`initRive`) fetches that
failed source. -/
theorem c10_src_overwrite (s : RiveState) (env env2 : InitEnv)
    (newSrc : String) (hfail : env.fetchOk = false) (hne : newSrc ≠ s.src) :
    (s.setSource env newSrc).s.src = newSrc ∧
    (s.setSource env newSrc).s.src ≠ s.src ∧
    Event.fetchAttempt newSrc ∈ (s.setSource env newSrc).ev ∧
    Event.fetchAttempt newSrc
      ∈ ((s.setSource env newSrc).s.initRive env2).ev := by
  obtain ⟨f, oc, rc, tx⟩ := env
  simp only at hfail
  subst hfail
  refine ⟨?_, ?_, ?_, ?_⟩ <;>
    simp [RiveState.setSource, RiveState.initRive, RiveState.initRiveBegin,
      RiveState.initRiveResume, hne, mem_logInfo, mem_logError]

/-- C10 witness: the failed swap from `"a.riv"` to `"b.riv"` on the
concrete ready adapter, followed by a reload. -/
theorem c10_src_overwrite_witness :
    envFetchFail.fetchOk = false ∧ "b.riv" ≠ readyState.src ∧
    ((readyState.setSource envFetchFail "b.riv").s.src = "b.riv" ∧
     (readyState.setSource envFetchFail "b.riv").s.src ≠ readyState.src ∧
     Event.fetchAttempt "b.riv"
       ∈ (readyState.setSource envFetchFail "b.riv").ev ∧
     Event.fetchAttempt "b.riv"
       ∈ ((readyState.setSource envFetchFail "b.riv").s.initRive
           envOk).ev) :=
  ⟨by decide, by decide,
   c10_src_overwrite readyState envFetchFail envOk "b.riv" (by decide)
     (by decide)⟩

end PixiRive
